import Mathlib

/-!
Shallow embedding of the cordyceps crate (an OpenAI chat-completions client):
`src/chat/mod.rs` (request/response data model, payload builder, enum string
codecs) and `src/client.rs` (HTTP send and the per-chunk prefix-stripping
stream transform). Rust `f64` fields are modelled by `F64` (a rational value
or one of the non-finite floats); byte buffers (`bytes::Bytes`) by
`List Nat`; `HashMap<String, f64>` by an association list; fallible
operations by `Except`/`Option`.
-/

namespace Cordyceps

/-- Models `f64`: either a finite value (no arithmetic is performed on these
fields, so a rational carrier is exact) or one of the non-finite floats. -/
inductive F64 where
  | finite (q : ℚ)
  | nan
  | infinity
  | negInfinity
deriving DecidableEq, Repr

/-- Embeds `Role` from `src/chat/mod.rs`: author of a conversational turn. -/
inductive Role where
  | system
  | user
  | assistant
deriving DecidableEq, Repr

/-- Embeds `impl Display for Role` followed by `impl Serialize` (`serialize_str` of
the `Display` output): the fixed lowercase string per variant. -/
def Role.serialize : Role → String
  | .system => "system"
  | .user => "user"
  | .assistant => "assistant"

/-- Embeds `impl Deserialize for Role`: match on the string, rejecting anything
outside the closed set with the custom error message. -/
def Role.deserialize (s : String) : Except String Role :=
  if s = "system" then .ok .system
  else if s = "user" then .ok .user
  else if s = "assistant" then .ok .assistant
  else .error (s ++ " is not a valid role")

/-- Embeds `Model` from `src/chat/mod.rs`: backend model variant. -/
inductive Model where
  | gpt35Turbo
  | gpt35Turbo0301
deriving DecidableEq, Repr

/-- Embeds `impl Display for Model` + `impl Serialize`: identifier string. -/
def Model.serialize : Model → String
  | .gpt35Turbo => "gpt-3.5-turbo"
  | .gpt35Turbo0301 => "gpt-3.5-turbo-0301"

/-- Embeds `impl Deserialize for Model`: closed string set, custom error. -/
def Model.deserialize (s : String) : Except String Model :=
  if s = "gpt-3.5-turbo" then .ok .gpt35Turbo
  else if s = "gpt-3.5-turbo-0301" then .ok .gpt35Turbo0301
  else .error (s ++ " is not a valid model")

/-- Embeds `FinishReason` from `src/chat/mod.rs`: decode-only stream-state tag. -/
inductive FinishReason where
  | length
  | stop
deriving DecidableEq, Repr

/-- Embeds `impl Deserialize for FinishReason`: closed string set, custom error. -/
def FinishReason.deserialize (s : String) : Except String FinishReason :=
  if s = "length" then .ok .length
  else if s = "stop" then .ok .stop
  else .error (s ++ " is not a valid finish reason")

/-- Embeds `Message` struct: a role together with its content. -/
structure Message where
  role : Role
  content : String
deriving DecidableEq, Repr

/-- Embeds `Message::new`. -/
def Message.new (role : Role) (content : String) : Message :=
  { role := role, content := content }

/-- Embeds `Payload` struct: the complete request description. -/
structure Payload where
  model : Model
  messages : List Message
  temperature : F64
  top_p : F64
  n : Int
  stream : Bool
  stop : Option String
  max_tokens : Int
  presence_penalty : F64
  frequency_penalty : F64
  logit_bias : List (String × F64)
  user : String
deriving DecidableEq, Repr

/-- Embeds `PayloadBuilder` struct: mutable staging mirror of `Payload`. -/
structure PayloadBuilder where
  model : Model
  messages : List Message
  temperature : F64
  top_p : F64
  n : Int
  stream : Bool
  stop : Option String
  max_tokens : Int
  presence_penalty : F64
  frequency_penalty : F64
  logit_bias : List (String × F64)
  user : String
deriving DecidableEq, Repr

/-- Embeds `impl Default for PayloadBuilder`: the documented defaults. -/
def PayloadBuilder.default : PayloadBuilder where
  model := .gpt35Turbo
  messages := []
  temperature := .finite 1
  top_p := .finite 1
  n := 1
  stream := true
  stop := none
  max_tokens := 1024
  presence_penalty := .finite 0
  frequency_penalty := .finite 0
  logit_bias := []
  user := "Rust Openai Developer"

/-- Embeds `PayloadBuilder::build`: fails when the message list is empty, otherwise
moves every staged field verbatim into the `Payload`. -/
def PayloadBuilder.build (b : PayloadBuilder) : Except String Payload :=
  if b.messages.isEmpty then
    .error "messages are not set"
  else
    .ok { model := b.model
          messages := b.messages
          temperature := b.temperature
          top_p := b.top_p
          n := b.n
          stream := b.stream
          stop := b.stop
          max_tokens := b.max_tokens
          presence_penalty := b.presence_penalty
          frequency_penalty := b.frequency_penalty
          logit_bias := b.logit_bias
          user := b.user }

/-- Embeds `PayloadBuilder::messages` (named `appendMessages` here because the
structure field already takes that name): pushes each element of the given
list in order onto the staged message list. -/
def PayloadBuilder.appendMessages (b : PayloadBuilder) (messages : List Message) : PayloadBuilder :=
  { b with messages := messages.foldl (fun acc m => acc ++ [m]) b.messages }

/-- Embeds `PayloadBuilder::message`: pushes a single message. -/
def PayloadBuilder.message (b : PayloadBuilder) (m : Message) : PayloadBuilder :=
  { b with messages := b.messages ++ [m] }

/-- Embeds `PayloadBuilder::user_message`: pushes `Message::new(Role::User, content)`. -/
def PayloadBuilder.user_message (b : PayloadBuilder) (content : String) : PayloadBuilder :=
  { b with messages := b.messages ++ [Message.new .user content] }

/-- Embeds `PayloadBuilder::system_message`: pushes `Message::new(Role::System, content)`. -/
def PayloadBuilder.system_message (b : PayloadBuilder) (content : String) : PayloadBuilder :=
  { b with messages := b.messages ++ [Message.new .system content] }

/-- Embeds `PayloadBuilder::assistant_message`: pushes `Message::new(Role::Assistant, content)`. -/
def PayloadBuilder.assistant_message (b : PayloadBuilder) (content : String) : PayloadBuilder :=
  { b with messages := b.messages ++ [Message.new .assistant content] }

/-- Embeds `Delta` struct: one incremental text fragment. -/
structure Delta where
  content : String
deriving DecidableEq, Repr

/-- Embeds `Choice` struct: one candidate's fragment. -/
structure Choice where
  delta : Delta
  index : Int
  finish_reason : Option FinishReason
deriving DecidableEq, Repr

/-- Embeds `Response` struct: one decoded frame of the stream. -/
structure Response where
  id : String
  object : String
  created : Int
  model : Model
  choices : List Choice
deriving DecidableEq, Repr

/-- Embeds `Response::text`: `self.choices.into_iter().nth(n).map(|c| c.delta.content)`. -/
def Response.text (r : Response) (n : Nat) : Option String :=
  (r.choices[n]?).map fun c => c.delta.content

/-- Embeds `bytes::Bytes::slice(start..)`: asserts `start <= len` and otherwise
panics; `none` models the panic, `some` the sub-buffer from `start` on. -/
def sliceFrom (start : Nat) (b : List Nat) : Option (List Nat) :=
  if start ≤ b.length then some (b.drop start) else none

/-- The per-chunk closure of the `filter_map` in `Client::send`
(`src/client.rs:68-74`): a successful chunk becomes `Ok(bytes.slice(6..))`
(panicking when the chunk is shorter than 6 bytes, modelled by `none`); an
errored chunk is passed through unchanged (`Err(_) => Some(result)`). The
real closure never skips an item, so `Option`'s `none` is free to stand for
the panic of `slice`. -/
def chunkTransform {ε : Type} : Except ε (List Nat) → Option (Except ε (List Nat))
  | .ok bytes => (sliceFrom 6 bytes).map Except.ok
  | .error e => some (.error e)

/-- An HTTP exchange as `Client::send` observes it: the response status and
the ordered chunks of the body stream, each either arrived bytes or a
transport-level error of type `ε`. -/
structure HttpResponse (ε : Type) where
  status : Nat
  chunks : List (Except ε (List Nat))

/-- Embeds `reqwest::StatusCode::is_success`: 2xx. -/
def statusIsSuccess (status : Nat) : Bool :=
  decide (200 ≤ status ∧ status < 300)

/-- The error of `Client::send` on a non-success status: the code builds a
message string carrying the status code (`src/client.rs:60-66`). -/
inductive ClientError where
  | requestFailed (status : Nat)
deriving DecidableEq, Repr

/-- Embeds `Client::send` after the POST: fail with the status when it is not a
success code, otherwise return the body stream with `chunkTransform`
applied to each chunk (each list entry is one yielded item, or `none` where
the closure panics). -/
def send {ε : Type} (resp : HttpResponse ε) :
    Except ClientError (List (Option (Except ε (List Nat)))) :=
  if statusIsSuccess resp.status then
    .ok (resp.chunks.map chunkTransform)
  else
    .error (.requestFailed resp.status)

/-- JSON values as `serde_jsonrc` produces them. -/
inductive JsonValue where
  | null
  | bool (b : Bool)
  | num (q : ℚ)
  | str (s : String)
  | arr (xs : List JsonValue)
  | obj (fields : List (String × JsonValue))

/-- Embeds `serde_jsonrc`'s serialization of an `f64`: non-finite floats are
written as `null`, never an error. -/
def serializeF64 : F64 → JsonValue
  | .finite q => .num q
  | .nan => .null
  | .infinity => .null
  | .negInfinity => .null

/-- The derived `Serialize` for `Message`. -/
def serializeMessage (m : Message) : JsonValue :=
  .obj [("role", .str m.role.serialize), ("content", .str m.content)]

/-- Embeds `Option<String>`: `None` serializes as `null`. -/
def serializeOptionString : Option String → JsonValue
  | none => .null
  | some s => .str s

/-- Embeds `serde_jsonrc`'s map-key rule, its one genuine failure point for this
data shape: a map key must serialize to a string. -/
def mapKey : JsonValue → Except String String
  | .str s => .ok s
  | _ => .error "key must be a string"

/-- Serialization of the `HashMap<String, f64>` entries: each key goes
through the map-key check. -/
def serializeMapEntries : List (String × F64) → Except String (List (String × JsonValue))
  | [] => .ok []
  | kv :: rest =>
    match mapKey (.str kv.1), serializeMapEntries rest with
    | .ok k, .ok fields => .ok ((k, serializeF64 kv.2) :: fields)
    | .error e, _ => .error e
    | .ok _, .error e => .error e

/-- Embeds `serde_jsonrc::to_string(&payload)` modelled up to the rendered tree:
the derived `Serialize` for `Payload` emits each field in declaration
order; the only fallible step is the map-key check of `logit_bias`. -/
def serializePayload (p : Payload) : Except String JsonValue :=
  match serializeMapEntries p.logit_bias with
  | .error e => .error e
  | .ok bias =>
    .ok (.obj
      [("model", .str p.model.serialize),
       ("messages", .arr (p.messages.map serializeMessage)),
       ("temperature", serializeF64 p.temperature),
       ("top_p", serializeF64 p.top_p),
       ("n", .num (p.n : ℚ)),
       ("stream", .bool p.stream),
       ("stop", serializeOptionString p.stop),
       ("max_tokens", .num (p.max_tokens : ℚ)),
       ("presence_penalty", serializeF64 p.presence_penalty),
       ("frequency_penalty", serializeF64 p.frequency_penalty),
       ("logit_bias", .obj bias),
       ("user", .str p.user)])

/-- Embeds `impl From<Payload> for serde_jsonrc::Value`
(`src/chat/mod.rs:296-301`): `to_string(&val).unwrap().into()`. Rendering
the tree to text and wrapping the text as a `Value::String` are total, so
the `unwrap` — modelled by `Option` — is safe exactly when
`serializePayload` succeeds. -/
def fromPayload (p : Payload) : Option JsonValue :=
  (serializePayload p).toOption

/-- A list is non-empty exactly when `isEmpty` is `false`. -/
lemma isEmpty_false_of_ne_nil {α : Type} {l : List α} (h : l ≠ []) : l.isEmpty = false := by
  cases l with
  | nil => exact absurd rfl h
  | cons x xs => rfl

/-- Pushing the elements of a list one by one appends the list. -/
lemma foldl_push_eq_append (ms : List Message) :
    ∀ acc : List Message, ms.foldl (fun acc m => acc ++ [m]) acc = acc ++ ms := by
  induction ms with
  | nil => intro acc; simp
  | cons m rest ih =>
    intro acc
    simp only [List.foldl_cons, ih, List.append_assoc, List.singleton_append]

/-- Every map entry of a `logit_bias` association list serializes. -/
lemma serializeMapEntries_ok (entries : List (String × F64)) :
    ∃ fields, serializeMapEntries entries = Except.ok fields := by
  induction entries with
  | nil => exact ⟨[], rfl⟩
  | cons kv rest ih =>
    obtain ⟨fields, hf⟩ := ih
    exact ⟨(kv.1, serializeF64 kv.2) :: fields, by simp [serializeMapEntries, mapKey, hf]⟩

/-- A concrete decoded frame with one choice whose delta is "Hello". -/
def sampleFrame : Response where
  id := "chatcmpl-123"
  object := "chat.completion.chunk"
  created := 0
  model := .gpt35Turbo
  choices := [{ delta := { content := "Hello" }, index := 0, finish_reason := none }]

/-- Claim C1: a successful chunk of at least 6 bytes is yielded as exactly its
bytes from offset 6 on; a transport-level error chunk is yielded unchanged as
an error item, and the stream continues past it (the mapped stream keeps every
later chunk). -/
theorem chunk_transform_exact {ε : Type} (e : ε) (bytes : List Nat)
    (h : 6 ≤ bytes.length) (rest : List (Except ε (List Nat))) :
    chunkTransform (ε := ε) (Except.ok bytes) = some (Except.ok (bytes.drop 6)) ∧
    chunkTransform (Except.error e) = some (Except.error e) ∧
    (Except.error e :: rest).map chunkTransform
      = some (Except.error e) :: rest.map chunkTransform := by
  refine ⟨?_, rfl, rfl⟩
  simp [chunkTransform, sliceFrom, h]

/-- Witness for C1 at the 7-byte chunk "data: \x7b" and an error item. -/
theorem chunk_transform_exact_witness :
    chunkTransform (ε := Nat) (Except.ok [100, 97, 116, 97, 58, 32, 123])
      = some (Except.ok [123]) ∧
    chunkTransform (ε := Nat) (Except.error 0) = some (Except.error 0) ∧
    ([Except.error 0, Except.ok [100, 97, 116, 97, 58, 32, 123]] :
        List (Except Nat (List Nat))).map chunkTransform
      = some (Except.error 0) ::
        ([Except.ok [100, 97, 116, 97, 58, 32, 123]] :
          List (Except Nat (List Nat))).map chunkTransform :=
  chunk_transform_exact 0 [100, 97, 116, 97, 58, 32, 123] (by decide)
    [Except.ok [100, 97, 116, 97, 58, 32, 123]]

/-- Counterexample to claim C2: on the 3-byte successful chunk `[100, 97, 116]`
the transform does not yield a successful item with the first 6 bytes removed
(it evaluates to `none`, the model of the `slice(6..)` panic). -/
theorem short_chunk_not_yielded :
    chunkTransform (ε := Nat) (Except.ok [100, 97, 116]) = none ∧
    chunkTransform (ε := Nat) (Except.ok [100, 97, 116])
      ≠ some (Except.ok (([100, 97, 116] : List Nat).drop 6)) := by
  exact ⟨rfl, by intro h; exact Option.noConfusion h⟩

/-- Claim C2 as amended: the per-chunk transform yields a successful item with
the first 6 bytes removed only for successful chunks of at least 6 bytes; on a
shorter successful chunk the `slice(6..)` call panics (modelled by `none`), so
the transform is not total. -/
theorem chunk_transform_amended {ε : Type} (bytes : List Nat) :
    (6 ≤ bytes.length →
      chunkTransform (ε := ε) (Except.ok bytes) = some (Except.ok (bytes.drop 6))) ∧
    (bytes.length < 6 → chunkTransform (ε := ε) (Except.ok bytes) = none) := by
  constructor
  · intro h
    simp [chunkTransform, sliceFrom, h]
  · intro h
    have hn : ¬ 6 ≤ bytes.length := by omega
    simp [chunkTransform, sliceFrom, hn]

/-- Witness for the amended C2 at a 6-byte chunk and a 1-byte chunk. -/
theorem chunk_transform_amended_witness :
    chunkTransform (ε := Nat) (Except.ok [100, 97, 116, 97, 58, 32])
      = some (Except.ok []) ∧
    chunkTransform (ε := Nat) (Except.ok [125]) = none :=
  ⟨(chunk_transform_amended (ε := Nat) [100, 97, 116, 97, 58, 32]).1 (by decide),
   (chunk_transform_amended (ε := Nat) [125]).2 (by decide)⟩

/-- Claim C3: `build()` fails with the error message "messages are not set"
exactly when the staged message list is empty; with at least one message it
succeeds and every field of the payload equals the staged builder field. -/
theorem build_validation (b : PayloadBuilder) :
    (b.build = Except.error "messages are not set" ↔ b.messages = []) ∧
    (b.messages ≠ [] →
      b.build = Except.ok
        { model := b.model
          messages := b.messages
          temperature := b.temperature
          top_p := b.top_p
          n := b.n
          stream := b.stream
          stop := b.stop
          max_tokens := b.max_tokens
          presence_penalty := b.presence_penalty
          frequency_penalty := b.frequency_penalty
          logit_bias := b.logit_bias
          user := b.user }) := by
  by_cases h : b.messages = []
  · refine ⟨⟨fun _ => h, fun _ => ?_⟩, fun hne => absurd h hne⟩
    simp [PayloadBuilder.build, h]
  · have he := isEmpty_false_of_ne_nil h
    refine ⟨⟨fun hb => ?_, fun hb => absurd hb h⟩, fun _ => ?_⟩
    · simp [PayloadBuilder.build, he] at hb
    · simp [PayloadBuilder.build, he]

/-- Witness for C3: the default builder fails, a builder with one assistant
message succeeds verbatim. -/
theorem build_validation_witness :
    PayloadBuilder.default.build = Except.error "messages are not set" ∧
    (PayloadBuilder.default.message (Message.new .assistant "hi")).build
      = Except.ok
        { model := .gpt35Turbo
          messages := [Message.new .assistant "hi"]
          temperature := .finite 1
          top_p := .finite 1
          n := 1
          stream := true
          stop := none
          max_tokens := 1024
          presence_penalty := .finite 0
          frequency_penalty := .finite 0
          logit_bias := []
          user := "Rust Openai Developer" } :=
  ⟨(build_validation PayloadBuilder.default).1.mpr rfl,
   (build_validation (PayloadBuilder.default.message (Message.new .assistant "hi"))).2
     (by decide)⟩

/-- Claim C4: the default builder with a single `user_message "x"` builds the
payload with every documented default and the one user message. -/
theorem default_builder_payload :
    (PayloadBuilder.default.user_message "x").build = Except.ok
      { model := .gpt35Turbo
        messages := [Message.new .user "x"]
        temperature := .finite 1
        top_p := .finite 1
        n := 1
        stream := true
        stop := none
        max_tokens := 1024
        presence_penalty := .finite 0
        frequency_penalty := .finite 0
        logit_bias := []
        user := "Rust Openai Developer" } := rfl

/-- Claim C5: staging `system_message a`, `user_message b`, `assistant_message c`
in that order builds the messages in exactly that order with roles System,
User, Assistant; and `messages(list)` appends the whole list to the staged
messages preserving its order. -/
theorem message_order_preserved (a b c : String) (b0 : PayloadBuilder) (ms : List Message) :
    (((PayloadBuilder.default.system_message a).user_message b).assistant_message c).build
      = Except.ok
        { model := .gpt35Turbo
          messages := [Message.new .system a, Message.new .user b, Message.new .assistant c]
          temperature := .finite 1
          top_p := .finite 1
          n := 1
          stream := true
          stop := none
          max_tokens := 1024
          presence_penalty := .finite 0
          frequency_penalty := .finite 0
          logit_bias := []
          user := "Rust Openai Developer" } ∧
    (b0.appendMessages ms).messages = b0.messages ++ ms := by
  exact ⟨rfl, foldl_push_eq_append ms b0.messages⟩

/-- Claim C6: for every `Role` and every `Model` variant, deserializing its
serialized string yields the variant back. -/
theorem enum_roundtrip :
    (∀ r : Role, Role.deserialize r.serialize = Except.ok r) ∧
    (∀ m : Model, Model.deserialize m.serialize = Except.ok m) :=
  ⟨fun r => by cases r <;> rfl, fun m => by cases m <;> rfl⟩

/-- Claim C7: any string outside the closed recognized set is rejected with
the decode error for `Role`, `Model` and `FinishReason` respectively, never
mapped to a default variant. -/
theorem unknown_string_rejected (s t u : String)
    (hs1 : s ≠ "system") (hs2 : s ≠ "user") (hs3 : s ≠ "assistant")
    (ht1 : t ≠ "gpt-3.5-turbo") (ht2 : t ≠ "gpt-3.5-turbo-0301")
    (hu1 : u ≠ "length") (hu2 : u ≠ "stop") :
    Role.deserialize s = Except.error (s ++ " is not a valid role") ∧
    Model.deserialize t = Except.error (t ++ " is not a valid model") ∧
    FinishReason.deserialize u = Except.error (u ++ " is not a valid finish reason") := by
  refine ⟨?_, ?_, ?_⟩
  · simp [Role.deserialize, hs1, hs2, hs3]
  · simp [Model.deserialize, ht1, ht2]
  · simp [FinishReason.deserialize, hu1, hu2]

/-- Witness for C7 at three strings outside the recognized sets. -/
theorem unknown_string_rejected_witness :
    Role.deserialize "visitor" = Except.error ("visitor" ++ " is not a valid role") ∧
    Model.deserialize "gpt-4" = Except.error ("gpt-4" ++ " is not a valid model") ∧
    FinishReason.deserialize "timeout"
      = Except.error ("timeout" ++ " is not a valid finish reason") :=
  unknown_string_rejected "visitor" "gpt-4" "timeout"
    (by decide) (by decide) (by decide) (by decide) (by decide) (by decide) (by decide)

/-- Claim C8: `text n` returns the nth choice's delta content when the choice
exists, and `none` (absent, not an error) when the index is out of range. -/
theorem text_extraction (r : Response) (c : Choice)
    (h0 : r.choices[0]? = some c) (hc : c.delta.content = "Hello")
    (r' : Response) (h1 : r'.choices.length = 1) :
    r.text 0 = some "Hello" ∧ r'.text 5 = none := by
  constructor
  · simp [Response.text, h0, hc]
  · have h5 : r'.choices[5]? = none := by
      rw [List.getElem?_eq_none]
      omega
    simp [Response.text, h5]

/-- Witness for C8 at a concrete one-choice frame. -/
theorem text_extraction_witness :
    sampleFrame.text 0 = some "Hello" ∧ sampleFrame.text 5 = none :=
  text_extraction sampleFrame
    { delta := { content := "Hello" }, index := 0, finish_reason := none }
    rfl rfl sampleFrame rfl

/-- Claim C9: on a non-success HTTP status, `send` fails with the
request-failed error carrying the status code; no stream (and hence no chunk)
is produced. -/
theorem nonsuccess_short_circuit {ε : Type} (resp : HttpResponse ε)
    (h : statusIsSuccess resp.status = false) :
    send resp = Except.error (ClientError.requestFailed resp.status) := by
  simp [send, h]

/-- Witness for C9 at status 404 with a non-empty body stream. -/
theorem nonsuccess_short_circuit_witness :
    send ({ status := 404, chunks := [Except.ok [100, 97, 116, 97, 58, 32, 123]] } :
        HttpResponse Nat)
      = Except.error (ClientError.requestFailed 404) :=
  nonsuccess_short_circuit
    ({ status := 404, chunks := [Except.ok [100, 97, 116, 97, 58, 32, 123]] } :
      HttpResponse Nat) (by decide)

/-- Claim C10: serializing any `Payload` to JSON succeeds, whatever the field
values (non-finite floats serialize as `null`, the `logit_bias` keys are
strings by construction), so the `unwrap` inside the `From<Payload>`
conversion never panics. -/
theorem payload_serialization_total (p : Payload) :
    ∃ v, fromPayload p = some v := by
  obtain ⟨fields, hf⟩ := serializeMapEntries_ok p.logit_bias
  unfold fromPayload serializePayload
  rw [hf]
  exact ⟨_, rfl⟩

end Cordyceps
